import Mathlib

/-!
Shallow embedding of the admission-control / quota / IP-reputation backend:
the chat handler with its quota, ban, model allow-list and accounting logic
(src/unnamed/part_000, handleAIChat), the IP ban check with lazy expiry
(src/server/routes/ip-management.ts, handleCheckIPBan), the account-per-IP
cap (handleCheckIPLimit), the user-IP link writers (handleRecordUserIP,
handleUpdateUserIPLogin), the admin gate of handleUpdateAIConfig and
handleVerifyAdmin, and the fixed-window rate limiter described in the spec
(its middleware source file is not present in the tree).

State (the Firestore collections) is passed explicitly as lists of
documents; fallible external calls (the AI completion, the counter update)
are passed as explicit outcome values, so every handler is a pure function
of its inputs.
-/

/-- A user document in the `users` collection.  Fields that may be absent in
Firestore are `Option`; the handler applies JavaScript falsy coercion
(`x || default`) when reading them. -/
structure UserDoc where
  messagesUsed : Option Nat
  messagesLimit : Option Nat
  banned : Option Bool
  isAdmin : Option Bool
deriving DecidableEq, Repr

/-- JavaScript `userData.messagesUsed || 0`: an absent field reads as 0
(an explicit 0 is falsy and also reads as 0). -/
def effUsed (u : UserDoc) : Nat :=
  match u.messagesUsed with
  | none => 0
  | some n => n

/-- JavaScript `userData.messagesLimit || 10`: an absent field reads as 10,
and an explicit 0 is falsy and also reads as 10. -/
def effLimit (u : UserDoc) : Nat :=
  match u.messagesLimit with
  | none => 10
  | some n => if n = 0 then 10 else n

/-- The guard `messagesUsed >= messagesLimit` of handleAIChat, over the
coerced values. -/
def quotaGateRejects (u : UserDoc) : Bool :=
  effLimit u ≤ effUsed u

/-- The server-side model allow-list of handleAIChat. -/
def allowedModels : List String :=
  ["x-ai/grok-4.1-fast:free", "gpt-4", "gpt-3.5-turbo",
   "claude-3-opus", "claude-3-sonnet"]

/-- Outcome of the OpenRouter fetch as the handler observes it: the body may
be unreadable, readable but not JSON, a parseable non-2xx error (with the
status and the resolved error message), or a parseable 2xx body whose
`choices[0].message.content` may be absent. -/
inductive AIResult where
  | readFail
  | parseFail
  | httpError (status : Nat) (msg : String)
  | ok (content : Option String)
deriving DecidableEq, Repr

/-- Whether the completion call succeeded (2xx with a parseable body). -/
def AIResult.success : AIResult → Bool
  | .ok _ => true
  | _ => false

/-- JavaScript `data?.choices?.[0]?.message?.content || "Pas de réponse"`:
an absent or empty (falsy) content is replaced by the default string. -/
def contentOrDefault : Option String → String
  | none => "Pas de réponse"
  | some s => if s = "" then "Pas de réponse" else s

/-- The JSON response of the chat route: an error envelope with an HTTP
status, or the success envelope carrying the content and the reported
counters. -/
inductive ChatRes where
  | resError (status : Nat) (msg : String)
  | success (content : String) (messagesUsed : Nat) (messagesLimit : Nat)
deriving DecidableEq, Repr

/-- What a run of the chat handler leaves behind: the response sent, the
`messagesUsed` field stored in the user document afterwards, and whether
the AI provider was called at all. -/
structure ChatOutcome where
  res : ChatRes
  storedUsed : Option Nat
  aiCalled : Bool
deriving DecidableEq, Repr

/-- handleAIChat (src/unnamed/part_000) from the point where the request is
validated, the token verified and the user document found: check quota,
then ban, then the model allow-list, then the API key; call the provider;
on a successful completion try to increment the stored counter, and send
the success envelope whether or not that write succeeded.  `updateOk`
says whether the Firestore update of `messagesUsed` succeeds. -/
def handleAIChat (u : UserDoc) (model : String) (apiKeyConfigured : Bool)
    (ai : AIResult) (updateOk : Bool) : ChatOutcome :=
  if quotaGateRejects u then
    ⟨.resError 403 "No credits available. Please activate a license.",
     u.messagesUsed, false⟩
  else if u.banned = some true then
    ⟨.resError 403 "Your account has been banned.", u.messagesUsed, false⟩
  else if ¬ allowedModels.contains model then
    ⟨.resError 400 "Model not allowed", u.messagesUsed, false⟩
  else if ¬ apiKeyConfigured then
    ⟨.resError 500 "Service d'IA non disponible. Veuillez contacter l'administrateur.",
     u.messagesUsed, false⟩
  else
    match ai with
    | .readFail =>
        ⟨.resError 500 "Failed to read response from AI service", u.messagesUsed, true⟩
    | .parseFail =>
        ⟨.resError 500 "Invalid response from AI service", u.messagesUsed, true⟩
    | .httpError status msg =>
        ⟨.resError status msg, u.messagesUsed, true⟩
    | .ok content =>
        ⟨.success (contentOrDefault content) (effUsed u + 1) (effLimit u),
         if updateOk then some (effUsed u + 1) else u.messagesUsed, true⟩

/-- A document of the `ip_bans` collection. -/
structure IPBanDoc where
  ipAddress : String
  reason : String
  bannedAt : Nat
  expiresAt : Option Nat
deriving DecidableEq, Repr

/-- The equality filter of the `ip_bans` query (`where ipAddress == ip`). -/
def ipMatches (ip : String) (d : IPBanDoc) : Bool :=
  d.ipAddress == ip

/-- The ban-check result of handleCheckIPBan on the happy path. -/
inductive BanRes where
  | notBanned
  | banned (reason : String) (expiresAt : Option Nat)
deriving DecidableEq, Repr

/-- handleCheckIPBan (src/server/routes/ip-management.ts) with the store
reachable: query the bans for the address, inspect the first matching
document; if it carries a past expiry, delete that document and report
not banned; otherwise report its ban data.  Returns the result and the
collection after the call. -/
def handleCheckIPBan (now : Nat) (bans : List IPBanDoc) (ip : String) :
    BanRes × List IPBanDoc :=
  match bans.filter (ipMatches ip) with
  | [] => (.notBanned, bans)
  | b :: _ =>
    match b.expiresAt with
    | some e =>
        if e < now then (.notBanned, bans.eraseP (ipMatches ip))
        else (.banned b.reason b.expiresAt, bans)
    | none => (.banned b.reason b.expiresAt, bans)

/-- Reachability of the persistent store as the ban route observes it: the
Admin SDK may be uninitialised, getAdminDb may hand back null, the query
itself may throw, or the query runs over the stored documents. -/
inductive StoreAccess where
  | notInit
  | nullDb
  | queryFails
  | ready (bans : List IPBanDoc)
deriving DecidableEq, Repr

/-- The JSON response of the check-ip-ban route. -/
inductive BanResponse where
  | respNotBanned
  | respBanned (reason : String) (expiresAt : Option Nat)
  | respError (status : Nat) (msg : String)
deriving DecidableEq, Repr

/-- The full response of handleCheckIPBan including the store-availability
paths: an uninitialised SDK or a null db fail open with banned = false,
while an exception thrown by the query lands in the catch block, which
sends a 500 error. -/
def checkBanResponse (now : Nat) (store : StoreAccess) (ip : String) : BanResponse :=
  match store with
  | .notInit => .respNotBanned
  | .nullDb => .respNotBanned
  | .queryFails => .respError 500 "Failed to check IP ban"
  | .ready bans =>
      match (handleCheckIPBan now bans ip).1 with
      | .notBanned => .respNotBanned
      | .banned r e => .respBanned r e

/-- A document of the `user_ips` collection. -/
structure UserIPDoc where
  userId : String
  ipAddress : String
  email : String
  recordedAt : Nat
  lastUsed : Nat
deriving DecidableEq, Repr

/-- The equality filter of the `user_ips` query by address. -/
def linkIpMatches (ip : String) (d : UserIPDoc) : Bool :=
  d.ipAddress == ip

/-- handleCheckIPLimit (src/server/routes/ip-management.ts) with the store
reachable: `accountCount` is the size of the query snapshot — the number
of stored link documents for the address — and the limit is exceeded iff
that size reaches maxAccounts. -/
def handleCheckIPLimit (links : List UserIPDoc) (ip : String) (maxAccounts : Nat) :
    Nat × Bool :=
  let accountCount := (links.filter (linkIpMatches ip)).length
  (accountCount, maxAccounts ≤ accountCount)

/-- Stated from the claim for comparison with handleCheckIPLimit: the number
of DISTINCT userIds among the link documents of an address. -/
def distinctUserCount (links : List UserIPDoc) (ip : String) : Nat :=
  ((links.filter (linkIpMatches ip)).map (fun d => d.userId)).dedup.length

/-- handleRecordUserIP (src/server/routes/ip-management.ts) with the store
reachable: unconditionally `add` a fresh link document for the pair. -/
def recordUserIP (links : List UserIPDoc) (userId ip email : String) (now : Nat) :
    List UserIPDoc :=
  links ++ [⟨userId, ip, email, now, now⟩]

/-- Whether a link document belongs to the (userId, ipAddress) pair. -/
def pairMatches (userId ip : String) (d : UserIPDoc) : Bool :=
  d.userId == userId && d.ipAddress == ip

/-- The loop of handleUpdateUserIPLogin: walk the documents of the userId
query in order and refresh lastUsed on the first one whose address
matches, leaving the rest untouched. -/
def touchFirst (userId ip : String) (now : Nat) : List UserIPDoc → List UserIPDoc
  | [] => []
  | d :: ds =>
      if pairMatches userId ip d then { d with lastUsed := now } :: ds
      else d :: touchFirst userId ip now ds

/-- handleUpdateUserIPLogin (src/server/routes/ip-management.ts) with the
store reachable: if some document matches the pair, refresh the first
match; otherwise add a new link document. -/
def updateUserIPLogin (links : List UserIPDoc) (userId ip : String) (now : Nat) :
    List UserIPDoc :=
  if links.any (pairMatches userId ip) then touchFirst userId ip now links
  else links ++ [⟨userId, ip, "", now, now⟩]

/-- The number of stored link documents for a (userId, ipAddress) pair. -/
def pairCount (links : List UserIPDoc) (userId ip : String) : Nat :=
  (links.filter (pairMatches userId ip)).length

/-- Outcome of token verification by the external identity verifier. -/
inductive AuthResult where
  | invalid
  | valid (uid : String)
deriving DecidableEq, Repr

/-- The authorization gate of handleUpdateAIConfig (src/unnamed/part_000):
`some (status, message)` is the error response it sends, `none` means the
caller is authorized.  An unverifiable token yields 401; a verified
caller whose user document is missing or lacks a truthy isAdmin yields
403. -/
def updateAIConfigAuth (auth : AuthResult) (lookup : String → Option UserDoc) :
    Option (Nat × String) :=
  match auth with
  | .invalid => some (401, "Unauthorized: Invalid token")
  | .valid uid =>
    match lookup uid with
    | none => some (403, "Forbidden: Admin access required")
    | some u =>
        if u.isAdmin = some true then none
        else some (403, "Forbidden: Admin access required")

/-- Modelled from the spec: FirebaseAdminService.verifyAdmin (its source
file is not under src/) resolves the caller via the identity verifier and
then checks the resolved account's isAdmin flag, throwing on either
failure; handleVerifyAdmin (src/server/routes/admin.ts) catches every
such error and sends status 401 with a message envelope.  The result is
the HTTP status and whether verification succeeded. -/
def handleVerifyAdmin (auth : AuthResult) (lookup : String → Option UserDoc) :
    Nat × Bool :=
  match auth with
  | .invalid => (401, false)
  | .valid uid =>
    match lookup uid with
    | none => (401, false)
    | some u => if u.isAdmin = some true then (200, true) else (401, false)

/-- Modelled from the spec: the rateLimit middleware
(src/server/middleware/security.ts is not in the source tree).  Per
client key it keeps a window start and a count; on each call, if no
window exists or the window has elapsed it starts a new window with
count = 1 and allows, otherwise it increments and allows iff the count
stays within maxRequests.  `rlRun` processes the request times of one
client key and returns, per request, the time, the window start under
which it was decided, and whether it was admitted. -/
def rlRun (windowMillis maxRequests : Nat) :
    Option (Nat × Nat) → List Nat → List (Nat × Nat × Bool)
  | _, [] => []
  | none, t :: ts =>
      (t, t, true) :: rlRun windowMillis maxRequests (some (t, 1)) ts
  | some (ws, c), t :: ts =>
      if windowMillis ≤ t - ws then
        (t, t, true) :: rlRun windowMillis maxRequests (some (t, 1)) ts
      else
        (t, ws, decide (c + 1 ≤ maxRequests)) ::
          rlRun windowMillis maxRequests (some (ws, c + 1)) ts

/-- The number of admitted requests whose time lies in the span [a, b]. -/
def admittedIn (a b : Nat) (l : List (Nat × Nat × Bool)) : Nat :=
  (l.filter (fun e => a ≤ e.1 && e.1 ≤ b && e.2.2)).length

/-- The number of admitted requests decided under the window starting at
ws. -/
def countAllowed (ws : Nat) (l : List (Nat × Nat × Bool)) : Nat :=
  (l.filter (fun e => e.2.1 == ws && e.2.2)).length

/-- Erasing the first element satisfying a predicate drops exactly the head
of the filtered list. -/
theorem filter_eraseP (p : α → Bool) :
    ∀ l : List α, (l.eraseP p).filter p = (l.filter p).tail := by
  intro l
  induction l with
  | nil => rfl
  | cons a t ih =>
    by_cases hp : p a
    · simp [List.eraseP_cons_of_pos hp, List.filter_cons_of_pos hp]
    · simp [List.eraseP_cons_of_neg (by simpa using hp),
        List.filter_cons_of_neg (by simpa using hp), ih]

/-- C1 counterexample: a banned account that is also out of quota
(used = 10 ≥ limit = 10, banned = true) receives the quota error, not the
ban error — handleAIChat checks the quota before the ban flag. -/
theorem c1_counterexample :
    (handleAIChat ⟨some 10, some 10, some true, none⟩ "gpt-4" true (.ok none) true).res
      = ChatRes.resError 403 "No credits available. Please activate a license." ∧
    (handleAIChat ⟨some 10, some 10, some true, none⟩ "gpt-4" true (.ok none) true).res
      ≠ ChatRes.resError 403 "Your account has been banned." := by
  exact ⟨rfl, by decide⟩

/-- C1 amended: a request by a banned account fails with the ban error
whenever the quota check passes (effective used < effective limit); when
used ≥ limit the quota error takes precedence even for banned accounts. -/
theorem c1_ban_error_when_quota_passes (u : UserDoc) (model : String)
    (key : Bool) (ai : AIResult) (updateOk : Bool)
    (hb : u.banned = some true) (hq : effUsed u < effLimit u) :
    (handleAIChat u model key ai updateOk).res
      = ChatRes.resError 403 "Your account has been banned." := by
  have hq' : ¬ effLimit u ≤ effUsed u := Nat.not_le.mpr hq
  simp [handleAIChat, quotaGateRejects, hq', hb]

/-- Witness for the C1 amended theorem at a concrete banned user with
remaining quota. -/
theorem c1_ban_error_witness :
    (handleAIChat ⟨some 0, some 10, some true, none⟩ "gpt-4" true (.ok none) true).res
      = ChatRes.resError 403 "Your account has been banned." :=
  c1_ban_error_when_quota_passes _ _ _ _ _ rfl (by decide)

/-- C2: for a request past the quota and ban gates (allowed model, API key
configured), the stored counter becomes used + 1 exactly when the
completion succeeds and the write succeeds; on any completion failure the
stored counter is unchanged; and a failed counter write still leaves the
user with the success envelope reporting used + 1. -/
theorem c2_increment_accounting (u : UserDoc) (model : String)
    (ai : AIResult) (updateOk : Bool)
    (hq : effUsed u < effLimit u) (hb : u.banned ≠ some true)
    (hm : allowedModels.contains model = true) :
    (ai.success = true → updateOk = true →
      (handleAIChat u model true ai updateOk).storedUsed = some (effUsed u + 1)) ∧
    (ai.success = false →
      (handleAIChat u model true ai updateOk).storedUsed = u.messagesUsed) ∧
    (ai.success = true → updateOk = false →
      (handleAIChat u model true ai updateOk).storedUsed = u.messagesUsed ∧
      ∃ c, (handleAIChat u model true ai updateOk).res
          = ChatRes.success c (effUsed u + 1) (effLimit u)) := by
  have hq' : ¬ effLimit u ≤ effUsed u := Nat.not_le.mpr hq
  cases ai <;>
    simp_all [handleAIChat, quotaGateRejects, AIResult.success, if_neg hq']

/-- Witness for C2 at a concrete in-quota user and a successful
completion with a successful counter write. -/
theorem c2_increment_witness :
    (handleAIChat ⟨some 3, some 10, none, none⟩ "gpt-4" true (.ok (some "hi")) true).storedUsed
      = some 4 :=
  (c2_increment_accounting ⟨some 3, some 10, none, none⟩ "gpt-4"
      (.ok (some "hi")) true (by decide) (by decide) (by decide)).1 rfl rfl

/-- C9 counterexample: a banned account submitting a model outside the
allow-list receives the 403 ban error, not the 400 validation outcome —
the model check runs only after the quota and ban gates.  (The provider
is still not called and the counter is unchanged.) -/
theorem c9_counterexample :
    (handleAIChat ⟨some 0, some 10, some true, none⟩ "not-a-model" true (.ok none) true).res
      = ChatRes.resError 403 "Your account has been banned." ∧
    (handleAIChat ⟨some 0, some 10, some true, none⟩ "not-a-model" true (.ok none) true).res
      ≠ ChatRes.resError 400 "Model not allowed" ∧
    (handleAIChat ⟨some 0, some 10, some true, none⟩ "not-a-model" true (.ok none) true).aiCalled
      = false ∧
    (handleAIChat ⟨some 0, some 10, some true, none⟩ "not-a-model" true (.ok none) true).storedUsed
      = some 0 := by
  exact ⟨rfl, by decide, rfl, rfl⟩

/-- C9 amended: for a request that passes the quota and ban checks, a model
outside the allow-list yields the 400 validation outcome, no provider
call, and an unchanged counter. -/
theorem c9_model_gate (u : UserDoc) (model : String) (key : Bool)
    (ai : AIResult) (updateOk : Bool)
    (hq : effUsed u < effLimit u) (hb : u.banned ≠ some true)
    (hm : allowedModels.contains model = false) :
    (handleAIChat u model key ai updateOk).res = ChatRes.resError 400 "Model not allowed" ∧
    (handleAIChat u model key ai updateOk).aiCalled = false ∧
    (handleAIChat u model key ai updateOk).storedUsed = u.messagesUsed := by
  have hq' : ¬ effLimit u ≤ effUsed u := Nat.not_le.mpr hq
  simp_all [handleAIChat, quotaGateRejects, if_neg hq']

/-- Witness for the C9 amended theorem at a concrete in-quota, unbanned
user and a model outside the allow-list. -/
theorem c9_model_gate_witness :
    (handleAIChat ⟨some 3, some 10, some false, none⟩ "not-a-model" true (.ok none) true).res
      = ChatRes.resError 400 "Model not allowed" :=
  (c9_model_gate ⟨some 3, some 10, some false, none⟩ "not-a-model" true
      (.ok none) true (by decide) (by decide) (by decide)).1

/-- C10: falsy coercion of the stored quota fields — a missing messagesUsed
reads as 0, a missing or explicitly zero messagesLimit reads as 10, and a
user document with messagesLimit = 0 (and no messagesUsed) passes the
quota gate instead of being rejected as exhausted. -/
theorem c10_falsy_defaults (u : UserDoc) :
    (u.messagesUsed = none → effUsed u = 0) ∧
    (u.messagesLimit = none → effLimit u = 10) ∧
    (u.messagesLimit = some 0 → effLimit u = 10) ∧
    (u.messagesLimit = some 0 → u.messagesUsed = none →
      quotaGateRejects u = false) := by
  refine ⟨fun h => ?_, fun h => ?_, fun h => ?_, fun h h2 => ?_⟩ <;>
    simp [effUsed, effLimit, quotaGateRejects, h]
  simp [effUsed, h2]

/-- Witness for C10 at a concrete user document with messagesLimit = 0 and
no messagesUsed field. -/
theorem c10_falsy_defaults_witness :
    quotaGateRejects ⟨none, some 0, none, none⟩ = false :=
  (c10_falsy_defaults ⟨none, some 0, none, none⟩).2.2.2 rfl rfl

/-- C3: lazy expiry — when the ban records for an address consist of a
single record whose expiry lies in the past, the very next checkBan call
reports not banned and deletes the record, leaving zero stored ban
records for that address. -/
theorem c3_lazy_expiry (now : Nat) (bans : List IPBanDoc) (ip : String)
    (b : IPBanDoc) (e : Nat)
    (hf : bans.filter (ipMatches ip) = [b])
    (he : b.expiresAt = some e) (hlt : e < now) :
    (handleCheckIPBan now bans ip).1 = BanRes.notBanned ∧
    ((handleCheckIPBan now bans ip).2.filter (ipMatches ip)).length = 0 := by
  unfold handleCheckIPBan
  rw [hf]
  simp [he, hlt, filter_eraseP, hf]

/-- Witness for C3 at a concrete expired single ban record. -/
theorem c3_lazy_expiry_witness :
    (handleCheckIPBan 10 [⟨"203.0.113.5", "abuse", 0, some 5⟩] "203.0.113.5").1
      = BanRes.notBanned ∧
    ((handleCheckIPBan 10 [⟨"203.0.113.5", "abuse", 0, some 5⟩] "203.0.113.5").2.filter
        (ipMatches "203.0.113.5")).length = 0 :=
  c3_lazy_expiry 10 _ _ ⟨"203.0.113.5", "abuse", 0, some 5⟩ 5 (by decide) rfl
    (by decide)

/-- C7 counterexample: when the ban-record query itself throws, the route
answers with the 500 error envelope, not with banned = false — the
fail-open path covers only unavailability detected before the query. -/
theorem c7_counterexample :
    checkBanResponse 0 StoreAccess.queryFails "203.0.113.5"
      = BanResponse.respError 500 "Failed to check IP ban" ∧
    checkBanResponse 0 StoreAccess.queryFails "203.0.113.5"
      ≠ BanResponse.respNotBanned := by
  exact ⟨rfl, by decide⟩

/-- C7 amended: checkBan fails open (banned = false) whenever the store is
unavailable before the query runs — the Admin SDK is uninitialised or the
database handle is null. -/
theorem c7_fail_open (now : Nat) (store : StoreAccess) (ip : String)
    (h : store = StoreAccess.notInit ∨ store = StoreAccess.nullDb) :
    checkBanResponse now store ip = BanResponse.respNotBanned := by
  rcases h with h | h <;> subst h <;> rfl

/-- Witness for the C7 amended theorem with an uninitialised SDK. -/
theorem c7_fail_open_witness :
    checkBanResponse 0 StoreAccess.notInit "203.0.113.5" = BanResponse.respNotBanned :=
  c7_fail_open 0 StoreAccess.notInit "203.0.113.5" (Or.inl rfl)

/-- C5 counterexample: two stored link documents for the same userId on one
address make the route report the limit exceeded at maxAccounts = 2,
although only one distinct userId is linked to the address. -/
theorem c5_counterexample :
    (handleCheckIPLimit
        [⟨"u1", "203.0.113.5", "", 0, 0⟩, ⟨"u1", "203.0.113.5", "", 1, 1⟩]
        "203.0.113.5" 2).2 = true ∧
    distinctUserCount
        [⟨"u1", "203.0.113.5", "", 0, 0⟩, ⟨"u1", "203.0.113.5", "", 1, 1⟩]
        "203.0.113.5" = 1 ∧
    ¬ 2 ≤ distinctUserCount
        [⟨"u1", "203.0.113.5", "", 0, 0⟩, ⟨"u1", "203.0.113.5", "", 1, 1⟩]
        "203.0.113.5" := by
  decide

/-- C5 amended: the route reports exceeded = true iff the number of stored
link DOCUMENTS for the address (which may contain duplicates for one
user) reaches maxAccounts, and reports that document count. -/
theorem c5_document_count (links : List UserIPDoc) (ip : String)
    (maxAccounts : Nat) (h1 : 1 ≤ maxAccounts) (h10 : maxAccounts ≤ 10) :
    (handleCheckIPLimit links ip maxAccounts).1
      = (links.filter (linkIpMatches ip)).length ∧
    ((handleCheckIPLimit links ip maxAccounts).2 = true ↔
      maxAccounts ≤ (links.filter (linkIpMatches ip)).length) := by
  exact ⟨rfl, by simp [handleCheckIPLimit]⟩

/-- Witness for the C5 amended theorem at an empty collection and
maxAccounts = 1. -/
theorem c5_document_count_witness :
    (handleCheckIPLimit [] "203.0.113.5" 1).1
      = (([] : List UserIPDoc).filter (linkIpMatches "203.0.113.5")).length ∧
    ((handleCheckIPLimit [] "203.0.113.5" 1).2 = true ↔
      1 ≤ (([] : List UserIPDoc).filter (linkIpMatches "203.0.113.5")).length) :=
  c5_document_count [] "203.0.113.5" 1 (by decide) (by decide)

/-- C6 counterexample: for handleUpdateAIConfig the two authorization
failures differ — an invalid credential yields status 401 while a
verified non-admin account yields status 403, so the caller can tell
the cases apart. -/
theorem c6_counterexample :
    updateAIConfigAuth AuthResult.invalid
        (fun _ => some ⟨none, none, none, some false⟩)
      = some (401, "Unauthorized: Invalid token") ∧
    updateAIConfigAuth (AuthResult.valid "caller1")
        (fun _ => some ⟨none, none, none, some false⟩)
      = some (403, "Forbidden: Admin access required") ∧
    (401 : Nat) ≠ 403 := by
  exact ⟨rfl, rfl, by decide⟩

/-- C6 amended: handleUpdateAIConfig answers 401 for an unverifiable
credential and 403 for a verified caller without isAdmin (or without a
user document), while the admin routes gated by verifyAdmin answer 401
in both failure cases. -/
theorem c6_status_split (lookup : String → Option UserDoc) (uid : String) :
    updateAIConfigAuth AuthResult.invalid lookup
      = some (401, "Unauthorized: Invalid token") ∧
    (∀ u, lookup uid = some u → u.isAdmin ≠ some true →
      updateAIConfigAuth (AuthResult.valid uid) lookup
        = some (403, "Forbidden: Admin access required")) ∧
    (lookup uid = none →
      updateAIConfigAuth (AuthResult.valid uid) lookup
        = some (403, "Forbidden: Admin access required")) ∧
    (handleVerifyAdmin AuthResult.invalid lookup).1 = 401 ∧
    (∀ u, lookup uid = some u → u.isAdmin ≠ some true →
      (handleVerifyAdmin (AuthResult.valid uid) lookup).1 = 401) := by
  refine ⟨rfl, fun u h hna => ?_, fun h => ?_, rfl, fun u h hna => ?_⟩
  · simp [updateAIConfigAuth, h, hna]
  · simp [updateAIConfigAuth, h]
  · simp [handleVerifyAdmin, h, hna]

/-- Witness for the C6 amended theorem at a concrete verified non-admin
caller. -/
theorem c6_status_split_witness :
    updateAIConfigAuth (AuthResult.valid "caller1")
        (fun _ => some ⟨none, none, none, some false⟩)
      = some (403, "Forbidden: Admin access required") :=
  (c6_status_split (fun _ => some ⟨none, none, none, some false⟩) "caller1").2.1
    ⟨none, none, none, some false⟩ rfl (by decide)

/-- C8 counterexample: two recordLink calls for the same (userId, ip) pair
leave two link documents for the pair — recordLink adds unconditionally
instead of upserting. -/
theorem c8_counterexample :
    pairCount
        (recordUserIP (recordUserIP [] "u1" "203.0.113.5" "" 0) "u1" "203.0.113.5" "" 1)
        "u1" "203.0.113.5" = 2 ∧
    ¬ pairCount
        (recordUserIP (recordUserIP [] "u1" "203.0.113.5" "" 0) "u1" "203.0.113.5" "" 1)
        "u1" "203.0.113.5" ≤ 1 := by
  decide

/-- C4 counterexample: with window 10 and budget 2, the fixed-window
limiter admits the requests at times 8, 10 and 11 — three admissions
inside the span [8, 18] of length 10 that straddles two consecutive
windows, exceeding the budget of 2. -/
theorem c4_counterexample :
    admittedIn 8 (8 + 10) (rlRun 10 2 none [0, 8, 10, 11]) = 3 ∧
    2 < admittedIn 8 (8 + 10) (rlRun 10 2 none [0, 8, 10, 11]) := by
  decide

/-- Refreshing lastUsed on the first matching document does not change the
number of documents for the pair. -/
theorem pairCount_touchFirst (userId ip : String) (now : Nat)
    (links : List UserIPDoc) :
    pairCount (touchFirst userId ip now links) userId ip
      = pairCount links userId ip := by
  induction links with
  | nil => rfl
  | cons d ds ih =>
    simp only [pairCount] at ih ⊢
    by_cases hp : pairMatches userId ip d
    · have hp2 : pairMatches userId ip { d with lastUsed := now } = true := hp
      simp [touchFirst, List.filter_cons, hp, hp2]
    · simp [touchFirst, List.filter_cons, hp, ih]

/-- One touchLink call leaves the pair with max(previous count, 1)
documents: it refreshes an existing link or creates the only one. -/
theorem pairCount_update (links : List UserIPDoc) (userId ip : String)
    (now : Nat) :
    pairCount (updateUserIPLogin links userId ip now) userId ip
      = max (pairCount links userId ip) 1 := by
  unfold updateUserIPLogin
  by_cases h : links.any (pairMatches userId ip)
  · rw [if_pos h, pairCount_touchFirst]
    obtain ⟨x, hx, hpx⟩ := List.any_eq_true.mp h
    have hmem : x ∈ links.filter (pairMatches userId ip) :=
      List.mem_filter.mpr ⟨hx, hpx⟩
    have hpos : 1 ≤ pairCount links userId ip :=
      List.length_pos.mpr (List.ne_nil_of_mem hmem)
    omega
  · rw [if_neg h]
    have h0 : pairCount links userId ip = 0 := by
      simp only [List.any_eq_true, not_exists, not_and] at h
      simp only [pairCount, List.length_eq_zero, List.filter_eq_nil_iff]
      intro x hx
      simp [h x hx]
    have hnew : pairMatches userId ip ⟨userId, ip, "", now, now⟩ = true := by
      simp [pairMatches]
    have happ : pairCount (links ++ [(⟨userId, ip, "", now, now⟩ : UserIPDoc)]) userId ip
        = pairCount links userId ip + 1 := by
      simp [pairCount, List.filter_append, hnew]
    rw [happ, h0]
    omega

/-- C8 amended: touchLink is an idempotent upsert — any sequence of
touchLink calls for a pair preserves the invariant of at most one link
document for that pair — while recordLink unconditionally creates a new
document, growing the pair count by one on every call. -/
theorem c8_touch_upsert (links : List UserIPDoc) (userId ip : String)
    (nows : List Nat) (h : pairCount links userId ip ≤ 1) :
    pairCount (nows.foldl (fun s t => updateUserIPLogin s userId ip t) links)
        userId ip ≤ 1 ∧
    ∀ email now2, pairCount (recordUserIP links userId ip email now2) userId ip
        = pairCount links userId ip + 1 := by
  constructor
  · induction nows generalizing links with
    | nil => exact h
    | cons t ts ih =>
      have hstep : pairCount (updateUserIPLogin links userId ip t) userId ip ≤ 1 := by
        rw [pairCount_update]
        omega
      exact ih _ hstep
  · intro email now2
    have hnew : pairMatches userId ip ⟨userId, ip, email, now2, now2⟩ = true := by
      simp [pairMatches]
    simp [pairCount, recordUserIP, List.filter_append, hnew]

/-- Witness for the C8 amended theorem: three touchLink calls starting from
an empty collection leave at most one link for the pair. -/
theorem c8_touch_upsert_witness :
    pairCount ([0, 1, 2].foldl
        (fun s t => updateUserIPLogin s "u1" "203.0.113.5" t) []) "u1" "203.0.113.5" ≤ 1 :=
  (c8_touch_upsert [] "u1" "203.0.113.5" [0, 1, 2] (by decide)).1

/-- Unfolding countAllowed over a cons cell. -/
theorem countAllowed_cons (ws : Nat) (e : Nat × Nat × Bool)
    (l : List (Nat × Nat × Bool)) :
    countAllowed ws (e :: l)
      = (if e.2.1 == ws && e.2.2 then 1 else 0) + countAllowed ws l := by
  by_cases h : (e.2.1 == ws && e.2.2) = true
  · simp [countAllowed, List.filter_cons, h, Nat.add_comm]
  · simp [countAllowed, List.filter_cons, h]

/-- A window start that labels no entry of the trace admits zero counted
requests. -/
theorem countAllowed_zero (ws : Nat) (l : List (Nat × Nat × Bool))
    (h : ∀ e ∈ l, e.2.1 ≠ ws) : countAllowed ws l = 0 := by
  induction l with
  | nil => rfl
  | cons e t ih =>
    have he : (e.2.1 == ws) = false := by
      simp [h e (by simp)]
    rw [countAllowed_cons, he]
    simp [ih (fun x hx => h x (by simp [hx]))]

/-- Every entry of a limiter run is decided under a window start no earlier
than the start of the state the run begins in. -/
theorem rlRun_ws_ge (W M : Nat) :
    ∀ (ts : List Nat) (ws c : Nat), ts.Sorted (· ≤ ·) → (∀ t ∈ ts, ws ≤ t) →
      ∀ e ∈ rlRun W M (some (ws, c)) ts, ws ≤ e.2.1 := by
  intro ts
  induction ts with
  | nil =>
    intro ws c _ _ e he
    simp [rlRun] at he
  | cons t ts ih =>
    intro ws c hs hall e he
    obtain ⟨hta, hs2⟩ := List.sorted_cons.mp hs
    have hwt : ws ≤ t := hall t (by simp)
    simp only [rlRun] at he
    by_cases hW : W ≤ t - ws
    · rw [if_pos hW] at he
      rcases List.mem_cons.mp he with he1 | he2
      · subst he1; exact hwt
      · exact le_trans hwt (ih t 1 hs2 hta e he2)
    · rw [if_neg hW] at he
      rcases List.mem_cons.mp he with he1 | he2
      · subst he1; exact Nat.le_refl ws
      · exact ih ws (c + 1) hs2 (fun x hx => hall x (List.mem_cons_of_mem _ hx)) e he2

/-- Core bound of the fixed-window limiter: starting from a window that
already counted c requests, any later window start labels at most
maxRequests admissions, and the current window start labels at most
maxRequests − c further admissions. -/
theorem countAllowed_run_le (W M : Nat) (hW : 0 < W) (hM : 1 ≤ M) :
    ∀ (ts : List Nat) (ws c ws2 : Nat), ts.Sorted (· ≤ ·) → (∀ t ∈ ts, ws ≤ t) →
      countAllowed ws2 (rlRun W M (some (ws, c)) ts)
        ≤ if ws2 = ws then M - c else M := by
  intro ts
  induction ts with
  | nil =>
    intro ws c ws2 _ _
    simp only [rlRun, countAllowed, List.filter_nil, List.length_nil]
    split <;> exact Nat.zero_le _
  | cons t ts ih =>
    intro ws c ws2 hs hall
    obtain ⟨hta, hs2⟩ := List.sorted_cons.mp hs
    have hwt : ws ≤ t := hall t (by simp)
    simp only [rlRun]
    by_cases hW2 : W ≤ t - ws
    · rw [if_pos hW2]
      have hlt : ws < t := by omega
      rw [countAllowed_cons]
      have hrest := ih t 1 ws2 hs2 hta
      by_cases hwe : ws2 = t
      · subst hwe
        rw [if_pos rfl] at hrest
        rw [if_neg (Nat.ne_of_gt hlt)]
        simp only [beq_self_eq_true, Bool.true_and, if_true]
        omega
      · have hb : ((t : Nat) == ws2) = false := by
          simp
          exact fun h2 => hwe h2.symm
        simp only [hb, Bool.false_and, Bool.false_eq_true, if_false, Nat.zero_add]
        by_cases hww : ws2 = ws
        · subst hww
          have hz : countAllowed ws2 (rlRun W M (some (t, 1)) ts) = 0 := by
            apply countAllowed_zero
            intro e he
            have := rlRun_ws_ge W M ts t 1 hs2 hta e he
            omega
          rw [hz, if_pos rfl]
          exact Nat.zero_le _
        · rw [if_neg hww]
          rw [if_neg hwe] at hrest
          exact hrest
    · rw [if_neg hW2]
      rw [countAllowed_cons]
      have hrest := ih ws (c + 1) ws2 hs2
        (fun x hx => hall x (List.mem_cons_of_mem _ hx))
      by_cases hww : ws2 = ws
      · subst hww
        rw [if_pos rfl] at hrest ⊢
        simp only [beq_self_eq_true, Bool.true_and]
        by_cases hcM : c + 1 ≤ M
        · simp only [decide_eq_true hcM, if_true]
          omega
        · simp only [decide_eq_false hcM, Bool.false_eq_true, if_false]
          omega
      · have hb : ((ws : Nat) == ws2) = false := by
          simp
          exact fun h2 => hww h2.symm
        rw [if_neg hww] at hrest ⊢
        simp only [hb, Bool.false_and, Bool.false_eq_true, if_false, Nat.zero_add]
        exact hrest

/-- C4 amended: the limiter is a fixed-window counter — for a sorted
request trace of one client key, at most maxRequests requests are
admitted under any single window start; a span of window length that
straddles two consecutive windows can see up to twice the budget (see
the counterexample). -/
theorem c4_window_bound (W M : Nat) (ts : List Nat) (ws2 : Nat)
    (hW : 0 < W) (hM : 1 ≤ M) (hs : ts.Sorted (· ≤ ·)) :
    countAllowed ws2 (rlRun W M none ts) ≤ M := by
  cases ts with
  | nil => exact Nat.zero_le M
  | cons t ts =>
    obtain ⟨hta, hs2⟩ := List.sorted_cons.mp hs
    simp only [rlRun]
    rw [countAllowed_cons]
    have hrest := countAllowed_run_le W M hW hM ts t 1 ws2 hs2 hta
    by_cases hwe : ws2 = t
    · subst hwe
      rw [if_pos rfl] at hrest
      simp only [beq_self_eq_true, Bool.true_and, if_true]
      omega
    · have hb : ((t : Nat) == ws2) = false := by
        simp
        exact fun h2 => hwe h2.symm
      rw [if_neg hwe] at hrest
      simp only [hb, Bool.false_and, Bool.false_eq_true, if_false, Nat.zero_add]
      exact hrest

/-- Witness for the C4 amended theorem at a concrete sorted trace. -/
theorem c4_window_bound_witness :
    countAllowed 0 (rlRun 10 2 none [0, 8, 9]) ≤ 2 :=
  c4_window_bound 10 2 [0, 8, 9] 0 (by decide) (by decide) (by decide)
